import Mathlib

/-!
Verification development for the supervision kernel in
`src/kernel/src/servers.rs`. The Rust source is shallowly embedded:
the stateful `Server` trait becomes a record of explicit state-passing
functions, the tokio mpsc channel becomes an explicit queue state, and
the spawned supervising task becomes a pure function producing the
finite trace of observable events (start call, process calls, best
effort sink sends) for a given finite sequence of successfully
enqueued messages.
-/

namespace Doppel

/-- Service identifier, `type ServerId = String` in the source. -/
abbrev ServerId := String

/-- The error taxonomy of `servers.rs` lines 14-19:
`StartError(String, ServerId) | RuntimeError(String) | ClientError(String)`. -/
inductive ServerError where
  | StartError (reason : String) (id : ServerId)
  | RuntimeError (reason : String)
  | ClientError (reason : String)
deriving DecidableEq

/-- Embeds `impl From<PoisonError<T>> for ServerError` (lines 20-24):
a poisoned lock maps to `RuntimeError` of the message. -/
def serverErrorOfPoison (msg : String) : ServerError :=
  ServerError.RuntimeError msg

/-- Embeds `impl From<russh::Error> for ServerError` (lines 25-28):
a transport error maps to `ClientError` of the message. -/
def serverErrorOfRussh (msg : String) : ServerError :=
  ServerError.ClientError msg

/-- Modelled from the spec: `KernelError` lives in `crate::error`, which is
not among the provided sources. Section 6 of the spec requires it to provide
at least a channel-closed/send-failed variant (used by `send_sync`, which
builds `KernelError::ChannelError(...)`), and the `ServerError` taxonomy of
section 4.4 flows into the sink through it (the tests convert `ServerError`
values with `?`). We model exactly those two faces. -/
inductive KernelError where
  | ChannelError (reason : String)
  | ServerErr (e : ServerError)
deriving DecidableEq

/-- Whether a kernel error is the `StartError` variant of the taxonomy. -/
def KernelError.isStartError : KernelError → Bool
  | KernelError.ServerErr (ServerError.StartError _ _) => true
  | _ => false

/-- `type VoidRes = Result<(), KernelError>` from the crate root. -/
abbrev VoidRes := Except KernelError Unit

/-- `type Res<T> = Result<T, KernelError>` from the crate root. -/
abbrev Res (T : Type) := Except KernelError T

/-- The `Server<Mes>` trait (lines 52-56). The Rust methods mutate `self`;
here the service state has explicit type `σ` and each method returns the
updated state together with its `VoidRes` result. -/
structure Server (σ Mes : Type) where
  start : σ → σ × VoidRes
  stop : σ → σ × VoidRes
  process : σ → Mes → σ × VoidRes

/-- State of the bounded tokio mpsc channel allocated by `spawn_server`:
its fixed capacity, the FIFO queue contents, and whether the channel is
closed (the receiver half is gone). -/
structure ChannelState (Mes : Type) where
  capacity : Nat
  queue : List Mes
  closed : Bool
deriving DecidableEq

/-- A fresh bounded channel as built by `mpsc::channel::<M>(cap)`:
empty queue, open. -/
def mkChannel (Mes : Type) (cap : Nat) : ChannelState Mes :=
  { capacity := cap, queue := [], closed := false }

/-- `ServerHandle<Mes>` (lines 30-32): a thin wrapper owning one producer
endpoint of the channel. In the embedding the `sender` field records the
channel the endpoint was captured from at spawn time. -/
structure ServerHandle (Mes : Type) where
  sender : ChannelState Mes
deriving DecidableEq

/-- `ServerHandle::new` (lines 35-37). -/
def ServerHandle.new (sender : ChannelState Mes) : ServerHandle Mes :=
  { sender := sender }

/-- One completed send on the tokio mpsc channel, shared by
`Sender::send` and `Sender::blocking_send`: both wait for capacity, so a
completed call either enqueued the message at the tail of the FIFO queue
and returned Ok, or found the channel closed (receiver dropped) and
returned a send error carrying a message. Waiting for a free slot only
delays completion and is not visible in the completed-call result. -/
def channelSend (ch : ChannelState Mes) (m : Mes) : ChannelState Mes × Except String Unit :=
  if ch.closed then
    (ch, Except.error "channel closed")
  else
    ({ ch with queue := ch.queue ++ [m] }, Except.ok ())

/-- Modelled from the spec: the `?` operator in `ServerHandle::send`
converts tokio's `SendError` into `KernelError` through a `From` impl in
`crate::error`, which is outside the provided sources. Per section 6 of
the spec, handle send failures are reported through the kernel error
type's channel-closed/send-failed variant. -/
def sendErrorToKernel (msg : String) : KernelError :=
  KernelError.ChannelError msg

/-- `ServerHandle::send` (lines 39-41): `Ok(self.sender.send(message).await?)`.
The handle argument embeds `&self`; `ch` is the current state of the shared
channel its `sender` endpoint refers to. -/
def ServerHandle.send (_hd : ServerHandle Mes) (ch : ChannelState Mes) (m : Mes) :
    ChannelState Mes × VoidRes :=
  let r := channelSend ch m
  (r.1, r.2.mapError sendErrorToKernel)

/-- `ServerHandle::send_sync` (lines 43-50): clones the sender, then on a
blocking-capable context runs `blocking_send(message)` and maps a failure
to `KernelError::ChannelError(e.to_string())`. -/
def ServerHandle.send_sync (_hd : ServerHandle Mes) (ch : ChannelState Mes) (m : Mes) :
    ChannelState Mes × VoidRes :=
  let r := channelSend ch m
  (r.1, r.2.mapError fun e => KernelError.ChannelError e)

/-- Observable events of the supervising task spawned by `spawn_server`:
a call to `start` with its result, a call to `process` on a message with
its result, a best-effort send of an error to the sink (recording whether
the sink accepted it), and a call to `stop` with its result. -/
inductive Event (Mes : Type) where
  | startCall (r : VoidRes)
  | processCall (m : Mes) (r : VoidRes)
  | sinkSend (e : KernelError) (delivered : Bool)
  | stopCall (r : VoidRes)

/-- The message loop of the spawned task (lines 76-87): each iteration
receives the next queued message and calls `process` on it; on a process
error, when a sink is present, the error is sent to the sink and the send
result is discarded (`let _ = err_sender.send(e).await`); the loop then
continues either way. `acc k` tells whether the k-th sink send attempt of
the task is accepted by the sink; `msgs` is the FIFO sequence of messages
successfully enqueued on the channel before it closes. -/
def processLoop (svc : Server σ Mes) (sinkPresent : Bool) (acc : Nat → Bool) :
    σ → Nat → List Mes → List (Event Mes)
  | _, _, [] => []
  | s, k, m :: rest =>
    match svc.process s m with
    | (s', Except.ok _) =>
        Event.processCall m (Except.ok ()) :: processLoop svc sinkPresent acc s' k rest
    | (s', Except.error e) =>
        Event.processCall m (Except.error e) ::
          (if sinkPresent then
            Event.sinkSend e (acc k) :: processLoop svc sinkPresent acc s' (k + 1) rest
          else
            processLoop svc sinkPresent acc s' k rest)

/-- Trace of the task spawned by `spawn_server` (lines 69-88): call
`start`; on an error send it to the sink when present (discarding the
send result) and return, never entering the loop; on success enter the
message loop. -/
def spawnTrace (svc : Server σ Mes) (s0 : σ) (sinkPresent : Bool) (acc : Nat → Bool)
    (msgs : List Mes) : List (Event Mes) :=
  match svc.start s0 with
  | (_, Except.error e) =>
      Event.startCall (Except.error e) ::
        (if sinkPresent then [Event.sinkSend e (acc 0)] else [])
  | (s1, Except.ok _) =>
      Event.startCall (Except.ok ()) :: processLoop svc sinkPresent acc s1 0 msgs

/-- Result of a call to `spawn_server` (lines 58-91): the value returned
to the caller, and the behavior of the spawned supervising task, read off
as its event trace once the sink acceptance oracle and the enqueued
message sequence are fixed. -/
structure SpawnResult (σ Mes : Type) where
  result : Res (ServerHandle Mes)
  task : (Nat → Bool) → List Mes → List (Event Mes)

/-- `spawn_server` (lines 58-91): allocate `mpsc::channel::<M>(32)`,
spawn the supervising task, and return `Ok(ServerHandle::new(sender))`
immediately, without waiting on the task. -/
def spawn_server (svc : Server σ Mes) (s0 : σ) (sinkPresent : Bool) : SpawnResult σ Mes :=
  { result := Except.ok (ServerHandle.new (mkChannel Mes 32))
  , task := fun acc msgs => spawnTrace svc s0 sinkPresent acc msgs }

/-- Messages passed to `process`, in trace order. -/
def processedMessages : List (Event Mes) → List Mes
  | [] => []
  | Event.processCall m _ :: rest => m :: processedMessages rest
  | _ :: rest => processedMessages rest

/-- Errors the task attempted to send to the sink, in trace order. -/
def sinkErrors : List (Event Mes) → List KernelError
  | [] => []
  | Event.sinkSend e _ :: rest => e :: sinkErrors rest
  | _ :: rest => sinkErrors rest

/-- Errors returned by `process` calls, in trace order. -/
def processErrors : List (Event Mes) → List KernelError
  | [] => []
  | Event.processCall _ (Except.error e) :: rest => e :: processErrors rest
  | _ :: rest => processErrors rest

/-- Fueled view of the message loop's control flow (lines 76-87), one
unit of fuel per `select!` iteration: an iteration that receives a
message calls `process` and continues; the iteration that observes the
channel closed and drained hits the `else => break` arm and terminates.
Returns true iff the loop has terminated within the given number of
iterations. -/
def loopTerminates (svc : Server σ Mes) : Nat → σ → List Mes → Bool
  | 0, _, _ => false
  | _ + 1, _, [] => true
  | f + 1, s, m :: rest => loopTerminates svc f (svc.process s m).1 rest

/-- A small demonstration service over Nat state and Nat messages:
start succeeds, process accumulates the message into the state and
fails on message 7. -/
def demoService : Server Nat Nat :=
  { start := fun s => (s, Except.ok ())
  , stop := fun s => (s, Except.ok ())
  , process := fun s m =>
      (s + m,
        if m = 7 then Except.error (KernelError.ChannelError "overflow") else Except.ok ()) }

/-- A demonstration service whose start fails with a runtime error. -/
def failingService : Server Nat Nat :=
  { start := fun s =>
      (s, Except.error (KernelError.ServerErr (ServerError.RuntimeError "bind failed")))
  , stop := fun s => (s, Except.ok ())
  , process := fun s _ => (s, Except.ok ()) }

/-- The message loop passes exactly the enqueued messages to `process`,
in queue order, whatever the process results, the sink presence, and the
sink acceptance oracle. -/
theorem processedMessages_processLoop (svc : Server σ Mes) (sp : Bool) (acc : Nat → Bool) :
    ∀ (msgs : List Mes) (s : σ) (k : Nat),
      processedMessages (processLoop svc sp acc s k msgs) = msgs := by
  intro msgs
  induction msgs with
  | nil => intro s k; rfl
  | cons m rest ih =>
    intro s k
    rcases hp : svc.process s m with ⟨s', r⟩
    cases r with
    | ok u =>
      simp [processLoop, hp, processedMessages, ih]
    | error e =>
      cases sp <;> simp [processLoop, hp, processedMessages, ih]

/-- Without a sink the message loop never attempts a sink send. -/
theorem sinkErrors_processLoop_false (svc : Server σ Mes) (acc : Nat → Bool) :
    ∀ (msgs : List Mes) (s : σ) (k : Nat),
      sinkErrors (processLoop svc false acc s k msgs) = [] := by
  intro msgs
  induction msgs with
  | nil => intro s k; rfl
  | cons m rest ih =>
    intro s k
    rcases hp : svc.process s m with ⟨s', r⟩
    cases r with
    | ok u => simp [processLoop, hp, sinkErrors, ih]
    | error e => simp [processLoop, hp, sinkErrors, ih]

/-- With a sink present the errors sent to the sink by the message loop
are exactly the errors returned by `process`, in order. -/
theorem sinkErrors_processLoop_true (svc : Server σ Mes) (acc : Nat → Bool) :
    ∀ (msgs : List Mes) (s : σ) (k : Nat),
      sinkErrors (processLoop svc true acc s k msgs)
        = processErrors (processLoop svc true acc s k msgs) := by
  intro msgs
  induction msgs with
  | nil => intro s k; rfl
  | cons m rest ih =>
    intro s k
    rcases hp : svc.process s m with ⟨s', r⟩
    cases r with
    | ok u => simp [processLoop, hp, sinkErrors, processErrors, ih]
    | error e => simp [processLoop, hp, sinkErrors, processErrors, ih]

/-- The errors the loop sends toward the sink do not depend on whether
the sink accepted earlier sends: the send result is discarded. -/
theorem sinkErrors_processLoop_acc (svc : Server σ Mes) (sp : Bool) (acc acc' : Nat → Bool) :
    ∀ (msgs : List Mes) (s : σ) (k k' : Nat),
      sinkErrors (processLoop svc sp acc s k msgs)
        = sinkErrors (processLoop svc sp acc' s k' msgs) := by
  intro msgs
  induction msgs with
  | nil => intro s k k'; rfl
  | cons m rest ih =>
    intro s k k'
    rcases hp : svc.process s m with ⟨s', r⟩
    cases r with
    | ok u =>
      simp only [processLoop, hp, sinkErrors]
      exact ih s' k k'
    | error e =>
      cases sp with
      | false =>
        simp only [processLoop, hp, Bool.false_eq_true, if_false, sinkErrors]
        exact ih s' k k'
      | true =>
        simp only [processLoop, hp, if_true, sinkErrors]
        exact congrArg (List.cons e) (ih s' (k + 1) (k' + 1))

/-- The message loop never emits a stop call. -/
theorem stopCall_not_mem_processLoop (svc : Server σ Mes) (sp : Bool) (acc : Nat → Bool) :
    ∀ (msgs : List Mes) (s : σ) (k : Nat) (r : VoidRes),
      Event.stopCall r ∉ processLoop svc sp acc s k msgs := by
  intro msgs
  induction msgs with
  | nil => intro s k r; simp [processLoop]
  | cons m rest ih =>
    intro s k r
    rcases hp : svc.process s m with ⟨s', rr⟩
    cases rr with
    | ok u => simp [processLoop, hp]; exact ih s' k r
    | error e =>
      cases sp <;> simp [processLoop, hp] <;> first
        | exact ih s' k r
        | exact ih s' (k + 1) r

/-- C1: for every supervised service and every finite sequence of messages
successfully enqueued on its handles, the supervising task invokes the
service's `process` method on exactly those messages and in exactly the
order they were enqueued (FIFO delivery through the single bounded
channel), whatever the sink configuration and sink acceptance. -/
theorem fifo_delivery (svc : Server σ Mes) (s0 : σ) (sp : Bool) (acc : Nat → Bool)
    (msgs : List Mes) (hstart : (svc.start s0).2 = Except.ok ()) :
    processedMessages (spawnTrace svc s0 sp acc msgs) = msgs := by
  rcases hs : svc.start s0 with ⟨s1, r⟩
  rw [hs] at hstart
  simp only at hstart
  subst hstart
  simp [spawnTrace, hs, processedMessages, processedMessages_processLoop]

/-- Witness for C1: the demonstration service processes the enqueued
messages 1, 7, 2 in exactly that order. -/
theorem fifo_delivery_witness :
    processedMessages (spawnTrace demoService 0 true (fun _ => true) [1, 7, 2]) = [1, 7, 2] :=
  fifo_delivery demoService 0 true (fun _ => true) [1, 7, 2] rfl

/-- C2: the supervising task's trace always begins with the start call,
and a `process` call appears in the trace only when that start call
returned Ok: `process` is never invoked before `start` has returned
successfully. -/
theorem process_after_successful_start (svc : Server σ Mes) (s0 : σ) (sp : Bool)
    (acc : Nat → Bool) (msgs : List Mes) (m : Mes) (r : VoidRes) :
    (spawnTrace svc s0 sp acc msgs).head? = some (Event.startCall (svc.start s0).2)
    ∧ (Event.processCall m r ∈ spawnTrace svc s0 sp acc msgs →
        (svc.start s0).2 = Except.ok ()) := by
  rcases hs : svc.start s0 with ⟨s1, rr⟩
  cases rr with
  | ok u =>
    cases u
    refine ⟨by simp [spawnTrace, hs], fun _ => by simp [hs]⟩
  | error e =>
    refine ⟨by simp [spawnTrace, hs], fun hmem => ?_⟩
    cases sp <;> simp [spawnTrace, hs] at hmem

/-- Witness for C2 at the demonstration service and message list [3]. -/
theorem process_after_successful_start_witness :
    (spawnTrace demoService 0 true (fun _ => true) [3]).head?
        = some (Event.startCall (demoService.start 0).2)
    ∧ (Event.processCall 3 (Except.ok ()) ∈ spawnTrace demoService 0 true (fun _ => true) [3] →
        (demoService.start 0).2 = Except.ok ()) :=
  process_after_successful_start demoService 0 true (fun _ => true) [3] 3 (Except.ok ())

/-- C3: if `start` fails, the task invokes `process` on no message at all;
with a sink present exactly the one start error is sent to it, with no sink
nothing is sent; the trace does not depend on the messages buffered in the
channel (they are discarded), and the errors sent to the sink do not depend
on whether the sink accepts them (a failed sink send is swallowed). -/
theorem start_failure_isolation (svc : Server σ Mes) (s0 : σ) (sp : Bool)
    (acc acc' : Nat → Bool) (msgs msgs' : List Mes) (e : KernelError)
    (hstart : (svc.start s0).2 = Except.error e) :
    processedMessages (spawnTrace svc s0 sp acc msgs) = []
    ∧ (sp = true → sinkErrors (spawnTrace svc s0 sp acc msgs) = [e])
    ∧ (sp = false → sinkErrors (spawnTrace svc s0 sp acc msgs) = [])
    ∧ spawnTrace svc s0 sp acc msgs = spawnTrace svc s0 sp acc msgs'
    ∧ sinkErrors (spawnTrace svc s0 sp acc msgs) = sinkErrors (spawnTrace svc s0 sp acc' msgs) := by
  rcases hs : svc.start s0 with ⟨s1, rr⟩
  rw [hs] at hstart
  simp only at hstart
  subst hstart
  cases sp <;>
    simp [spawnTrace, hs, processedMessages, sinkErrors]

/-- Witness for C3: the failing demonstration service with buffered
messages [4, 5] processes nothing and reports its one start error. -/
theorem start_failure_isolation_witness :
    processedMessages (spawnTrace failingService 0 true (fun _ => true) [4, 5]) = []
    ∧ (true = true → sinkErrors (spawnTrace failingService 0 true (fun _ => true) [4, 5])
        = [KernelError.ServerErr (ServerError.RuntimeError "bind failed")])
    ∧ (true = false → sinkErrors (spawnTrace failingService 0 true (fun _ => true) [4, 5]) = [])
    ∧ spawnTrace failingService 0 true (fun _ => true) [4, 5]
        = spawnTrace failingService 0 true (fun _ => true) []
    ∧ sinkErrors (spawnTrace failingService 0 true (fun _ => true) [4, 5])
        = sinkErrors (spawnTrace failingService 0 true (fun _ => false) [4, 5]) :=
  start_failure_isolation failingService 0 true (fun _ => true) (fun _ => false) [4, 5] []
    (KernelError.ServerErr (ServerError.RuntimeError "bind failed")) rfl

/-- C4: a `process` failure is non-fatal: after a successful start every
enqueued message is passed to `process` whatever the individual process
results; each process error is forwarded to the sink exactly when a sink is
present; and the messages processed do not depend on whether the sink
accepted the forwarded errors. -/
theorem process_error_nonfatal (svc : Server σ Mes) (s0 : σ) (sp : Bool)
    (acc acc' : Nat → Bool) (msgs : List Mes)
    (hstart : (svc.start s0).2 = Except.ok ()) :
    processedMessages (spawnTrace svc s0 sp acc msgs) = msgs
    ∧ sinkErrors (spawnTrace svc s0 sp acc msgs)
        = (if sp then processErrors (spawnTrace svc s0 sp acc msgs) else [])
    ∧ processedMessages (spawnTrace svc s0 sp acc msgs)
        = processedMessages (spawnTrace svc s0 sp acc' msgs) := by
  rcases hs : svc.start s0 with ⟨s1, r⟩
  rw [hs] at hstart
  simp only at hstart
  subst hstart
  cases sp with
  | false =>
    simp [spawnTrace, hs, processedMessages, sinkErrors, processErrors,
      processedMessages_processLoop, sinkErrors_processLoop_false]
  | true =>
    simp [spawnTrace, hs, processedMessages, sinkErrors, processErrors,
      processedMessages_processLoop, sinkErrors_processLoop_true]

/-- Witness for C4: the demonstration service fails on message 7 yet
still processes 1, 7, 2 completely, forwarding the one error. -/
theorem process_error_nonfatal_witness :
    processedMessages (spawnTrace demoService 0 true (fun _ => true) [1, 7, 2]) = [1, 7, 2]
    ∧ sinkErrors (spawnTrace demoService 0 true (fun _ => true) [1, 7, 2])
        = (if true then processErrors (spawnTrace demoService 0 true (fun _ => true) [1, 7, 2])
           else [])
    ∧ processedMessages (spawnTrace demoService 0 true (fun _ => true) [1, 7, 2])
        = processedMessages (spawnTrace demoService 0 true (fun _ => false) [1, 7, 2]) :=
  process_error_nonfatal demoService 0 true (fun _ => true) (fun _ => false) [1, 7, 2] rfl

/-- The message loop terminates within a fuel bound exactly when the bound
allows one iteration per queued message plus the final iteration that
observes the closed, drained channel and breaks. -/
theorem loopTerminates_iff (svc : Server σ Mes) :
    ∀ (msgs : List Mes) (fuel : Nat) (s : σ),
      loopTerminates svc fuel s msgs = true ↔ msgs.length < fuel := by
  intro msgs
  induction msgs with
  | nil =>
    intro fuel s
    cases fuel with
    | zero => simp [loopTerminates]
    | succ f => simp [loopTerminates]
  | cons m rest ih =>
    intro fuel s
    cases fuel with
    | zero => simp [loopTerminates]
    | succ f =>
      simpa [loopTerminates, Nat.succ_lt_succ_iff] using ih f (svc.process s m).1

/-- C5: the supervising task terminates when and only when start fails or
the channel is closed and drained: the loop, given one unit of fuel per
iteration, has terminated exactly when the fuel covers every queued message
plus the closing iteration; on a start failure the whole trace is the start
call and its error report, with no loop events; and on the normal path
(start succeeded, closure reached) no error is reported unless some
`process` call itself failed. -/
theorem supervisor_termination (svc : Server σ Mes) (s0 s : σ) (sp : Bool)
    (acc : Nat → Bool) (msgs : List Mes) (fuel : Nat) (e : KernelError) :
    (loopTerminates svc fuel s msgs = true ↔ msgs.length < fuel)
    ∧ ((svc.start s0).2 = Except.error e →
        spawnTrace svc s0 sp acc msgs
          = Event.startCall (Except.error e) ::
              (if sp then [Event.sinkSend e (acc 0)] else []))
    ∧ ((svc.start s0).2 = Except.ok () →
        processErrors (spawnTrace svc s0 sp acc msgs) = [] →
        sinkErrors (spawnTrace svc s0 sp acc msgs) = []) := by
  refine ⟨loopTerminates_iff svc msgs fuel s, fun hstart => ?_, fun hstart hperr => ?_⟩
  · rcases hs : svc.start s0 with ⟨s1, rr⟩
    rw [hs] at hstart
    simp only at hstart
    subst hstart
    simp [spawnTrace, hs]
  · rcases hs : svc.start s0 with ⟨s1, rr⟩
    rw [hs] at hstart
    simp only at hstart
    subst hstart
    rw [spawnTrace] at hperr ⊢
    rw [hs] at hperr ⊢
    simp only [processErrors] at hperr
    cases sp with
    | false => simp [sinkErrors, sinkErrors_processLoop_false]
    | true =>
      simp only [sinkErrors]
      rw [sinkErrors_processLoop_true]
      exact hperr

/-- Witness for C5 at the demonstration service, fuel 4 and three
messages. -/
theorem supervisor_termination_witness :
    (loopTerminates demoService 4 0 [1, 7, 2] = true ↔ [1, 7, 2].length < 4)
    ∧ ((demoService.start 0).2 = Except.error (KernelError.ChannelError "nope") →
        spawnTrace demoService 0 true (fun _ => true) [1, 7, 2]
          = Event.startCall (Except.error (KernelError.ChannelError "nope")) ::
              (if true then [Event.sinkSend (KernelError.ChannelError "nope") true] else []))
    ∧ ((demoService.start 0).2 = Except.ok () →
        processErrors (spawnTrace demoService 0 true (fun _ => true) [1, 7, 2]) = [] →
        sinkErrors (spawnTrace demoService 0 true (fun _ => true) [1, 7, 2]) = []) :=
  supervisor_termination demoService 0 0 true (fun _ => true) [1, 7, 2] 4
    (KernelError.ChannelError "nope")

/-- C6 (counterexample): the supervisor does not wrap a start failure as a
StartError. The failing demonstration service's start error arrives at the
sink as the RuntimeError value start returned, which is not the StartError
variant and carries no service id. -/
theorem start_error_not_wrapped :
    sinkErrors (spawnTrace failingService 0 true (fun _ => true) [])
      = [KernelError.ServerErr (ServerError.RuntimeError "bind failed")]
    ∧ KernelError.isStartError
        (KernelError.ServerErr (ServerError.RuntimeError "bind failed")) = false :=
  ⟨rfl, rfl⟩

/-- C6 (amended): when start fails, the supervisor forwards the error value
returned by start to the sink unchanged, performing no wrapping of its own;
the StartError(reason, serviceId) variant of the taxonomy exists for
services themselves to construct. -/
theorem start_error_forwarded_unchanged (svc : Server σ Mes) (s0 : σ) (acc : Nat → Bool)
    (msgs : List Mes) (e : KernelError)
    (hstart : (svc.start s0).2 = Except.error e) :
    sinkErrors (spawnTrace svc s0 true acc msgs) = [e] := by
  rcases hs : svc.start s0 with ⟨s1, rr⟩
  rw [hs] at hstart
  simp only at hstart
  subst hstart
  simp [spawnTrace, hs, sinkErrors]

/-- Witness for the amended C6 at the failing demonstration service. -/
theorem start_error_forwarded_unchanged_witness :
    sinkErrors (spawnTrace failingService 5 true (fun _ => false) [9])
      = [KernelError.ServerErr (ServerError.RuntimeError "bind failed")] :=
  start_error_forwarded_unchanged failingService 5 (fun _ => false) [9]
    (KernelError.ServerErr (ServerError.RuntimeError "bind failed")) rfl

/-- C7: the supervising task never calls the service's stop method on any
exit path: no trace, for any start outcome, sink configuration or message
sequence, contains a stop call. -/
theorem stop_never_called (svc : Server σ Mes) (s0 : σ) (sp : Bool) (acc : Nat → Bool)
    (msgs : List Mes) (r : VoidRes) :
    Event.stopCall r ∉ spawnTrace svc s0 sp acc msgs := by
  rcases hs : svc.start s0 with ⟨s1, rr⟩
  cases rr with
  | ok u =>
    cases u
    simp only [spawnTrace, hs, List.mem_cons, not_or]
    exact ⟨by simp, stopCall_not_mem_processLoop svc sp acc msgs s1 0 r⟩
  | error e =>
    cases sp <;> simp [spawnTrace, hs]

/-- Witness for C7 at the demonstration service. -/
theorem stop_never_called_witness :
    Event.stopCall (Except.ok ()) ∉ spawnTrace demoService 0 false (fun _ => true) [7] :=
  stop_never_called demoService 0 false (fun _ => true) [7] (Except.ok ())

/-- C8: every call to spawn_server allocates a bounded FIFO channel of
capacity exactly 32, empty and open, captures its producer endpoint into
the ServerHandle it returns, and the returned value is the same whatever
the service and its start behavior: the handle is produced immediately and
independently of start. -/
theorem spawn_channel_capacity_and_handle (svc : Server σ Mes) (svc2 : Server σ' Mes)
    (s0 : σ) (s02 : σ') (sp sp2 : Bool) :
    (spawn_server svc s0 sp).result = Except.ok (ServerHandle.new (mkChannel Mes 32))
    ∧ (mkChannel Mes 32).capacity = 32
    ∧ (mkChannel Mes 32).queue = []
    ∧ (mkChannel Mes 32).closed = false
    ∧ (spawn_server svc s0 sp).result = (spawn_server svc2 s02 sp2).result :=
  ⟨rfl, rfl, rfl, rfl, rfl⟩

/-- C9: send and send_sync have identical delivery semantics: they are the
same function of the channel state; on an open channel both enqueue the
message at the tail and return Ok; on a closed channel both leave the
channel unchanged and fail with the same channel error, never a
service-internal error. -/
theorem send_and_send_sync_agree (hd : ServerHandle Mes) (ch : ChannelState Mes) (m : Mes) :
    hd.send ch m = hd.send_sync ch m
    ∧ (ch.closed = false →
        hd.send ch m = ({ ch with queue := ch.queue ++ [m] }, Except.ok ())
          ∧ hd.send_sync ch m = ({ ch with queue := ch.queue ++ [m] }, Except.ok ()))
    ∧ (ch.closed = true →
        ∃ rs, (hd.send ch m).2 = Except.error (KernelError.ChannelError rs)
          ∧ (hd.send_sync ch m).2 = Except.error (KernelError.ChannelError rs)
          ∧ (hd.send ch m).1 = ch) := by
  refine ⟨?_, fun hc => ?_, fun hc => ?_⟩
  · cases hc : ch.closed <;>
      simp [ServerHandle.send, ServerHandle.send_sync, channelSend, sendErrorToKernel,
        hc, Except.mapError]
  · constructor <;>
      simp [ServerHandle.send, ServerHandle.send_sync, channelSend, hc, Except.mapError]
  · refine ⟨"channel closed", ?_, ?_, ?_⟩ <;>
      simp [ServerHandle.send, ServerHandle.send_sync, channelSend, sendErrorToKernel,
        hc, Except.mapError]

/-- Witness for C9: a fresh handle and channel, sending the message 5. -/
theorem send_and_send_sync_agree_witness :
    (ServerHandle.new (mkChannel Nat 32)).send (mkChannel Nat 32) 5
        = (ServerHandle.new (mkChannel Nat 32)).send_sync (mkChannel Nat 32) 5
    ∧ ((mkChannel Nat 32).closed = false →
        (ServerHandle.new (mkChannel Nat 32)).send (mkChannel Nat 32) 5
            = ({ mkChannel Nat 32 with queue := (mkChannel Nat 32).queue ++ [5] },
               Except.ok ())
          ∧ (ServerHandle.new (mkChannel Nat 32)).send_sync (mkChannel Nat 32) 5
            = ({ mkChannel Nat 32 with queue := (mkChannel Nat 32).queue ++ [5] },
               Except.ok ()))
    ∧ ((mkChannel Nat 32).closed = true →
        ∃ rs, ((ServerHandle.new (mkChannel Nat 32)).send (mkChannel Nat 32) 5).2
              = Except.error (KernelError.ChannelError rs)
          ∧ ((ServerHandle.new (mkChannel Nat 32)).send_sync (mkChannel Nat 32) 5).2
              = Except.error (KernelError.ChannelError rs)
          ∧ ((ServerHandle.new (mkChannel Nat 32)).send (mkChannel Nat 32) 5).1
              = mkChannel Nat 32) :=
  send_and_send_sync_agree (ServerHandle.new (mkChannel Nat 32)) (mkChannel Nat 32) 5

/-- C10: spawn_server always returns Ok carrying a fresh handle; the error
case of its Result return type is never produced. -/
theorem spawn_server_never_fails (svc : Server σ Mes) (s0 : σ) (sp : Bool) :
    ∃ hd : ServerHandle Mes, (spawn_server svc s0 sp).result = Except.ok hd :=
  ⟨ServerHandle.new (mkChannel Mes 32), rfl⟩

end Doppel
